import Mathlib

/-!
Verification of the tutorium transaction backend (Go): charge dispatch,
webhook verification/reconciliation, and the idempotent transaction ledger
with its balance side effect. Definitions are a shallow embedding of the
Go source (handlers/webhook_handler.go, handlers/payment_handler_db.go,
main.go, models). The external payment gateway is modelled as a record of
oracle functions; every gateway operation issued is recorded in a trace so
that "no gateway call is made" is provable. Database failures are injected
through explicit boolean parameters.
-/

namespace Tutorium

/-- A loosely-typed JSON scalar as it appears in Go `map[string]interface{}`
metadata and card fields: a string or a number (float64/int both land here). -/
inductive MetaVal where
  | s (v : String)
  | n (v : Int)
deriving DecidableEq, Repr

/-- String-keyed metadata map (Go `map[string]interface{}`), as an association list. -/
abbrev MetaMap := List (String × MetaVal)

/-- Lookup of a key in a metadata map. -/
def lookupMeta : MetaMap → String → Option MetaVal
  | [], _ => none
  | (k, v) :: rest, key => if k = key then some v else lookupMeta rest key

/-- Go map assignment `m[k] = v`: replace the binding if the key exists, else add it. -/
def setMeta : MetaMap → String → MetaVal → MetaMap
  | [], k, v => [(k, v)]
  | (k', v') :: rest, k, v =>
      if k' = k then (k, v) :: rest else (k', v') :: setMeta rest k v

/-- The source descriptor carried by an omise.Charge (only the Type field is read). -/
structure ChargeSource where
  sourceType : String
deriving DecidableEq, Repr

/-- An omise.Charge snapshot, restricted to the fields the backend reads. -/
structure Charge where
  id : String
  amount : Int
  currency : String
  status : String
  failureCode : Option String
  failureMessage : Option String
  source : Option ChargeSource
  metadata : MetaMap
deriving DecidableEq, Repr

/-- The charge-shaped object embedded in an event's Data, after the backend's
re-marshal/unmarshal into a struct with only `id` and `object`. -/
structure EventData where
  object : String
  id : String
deriving DecidableEq, Repr

/-- An omise.Event as read back from the gateway (key + embedded data). -/
structure Event where
  key : String
  data : EventData
deriving DecidableEq, Repr

/-- The CreateToken request assembled for server-side tokenization. -/
structure TokenReq where
  name : String
  number : String
  expirationMonth : Int
  expirationYear : Int
  securityCode : String
deriving DecidableEq, Repr

/-- The operations.CreateCharge request assembled by the dispatch paths. -/
structure CreateChargeOp where
  amount : Int
  currency : String
  card : String
  source : String
  returnURI : String
  description : String
  metadata : MetaMap
deriving DecidableEq, Repr

/-- One gateway operation, as recorded in the call trace. -/
inductive GwOp where
  | createToken (req : TokenReq)
  | createSource (sourceType : String) (amount : Int) (currency : String)
  | createCharge (op : CreateChargeOp)
  | retrieveCharge (id : String)
  | retrieveEvent (id : String)
deriving DecidableEq, Repr

/-- The gateway client port: five remote operations, each of which may fail. -/
structure Gateway where
  createToken : TokenReq → Except String String
  createSource : String → Int → String → Except String String
  createCharge : CreateChargeOp → Except String Charge
  retrieveCharge : String → Except String Charge
  retrieveEvent : String → Except String Event

/-- A map of Go's card field union (interface{}) value, possibly absent. -/
structure CardMap where
  name : Option MetaVal
  number : Option MetaVal
  expirationMonth : Option MetaVal
  expirationYear : Option MetaVal
  securityCode : Option MetaVal
deriving DecidableEq, Repr

/-- models.PaymentRequest: the inbound charge request payload. -/
structure PaymentRequest where
  amount : Int
  currency : String
  paymentType : String
  token : String
  returnURI : String
  description : String
  metadata : MetaMap
  card : Option CardMap
  bank : String
  userID : Option Nat
deriving DecidableEq, Repr

/-- models.Transaction: one ledger row (surrogate id and timestamps omitted;
the raw payload blob is the marshalled charge snapshot itself). -/
structure Transaction where
  userID : Option Nat
  chargeID : String
  amountSatang : Int
  currency : String
  channel : String
  status : String
  failureCode : Option String
  failureMessage : Option String
  rawPayload : Charge
  meta : MetaMap
deriving DecidableEq, Repr

/-- Database state: the transaction ledger plus user balances in THB. -/
structure DBState where
  ledger : List Transaction
  balances : List (Nat × Rat)
deriving DecidableEq, Repr

/-- The unique index on transactions.charge_id: no two rows share a charge id. -/
def ledgerUnique (L : List Transaction) : Prop :=
  L.Pairwise (fun a b => a.chargeID ≠ b.chargeID)

/-- The GORM OnConflict DoUpdates assignment list: on a charge_id conflict,
update status, failure_code, failure_message, amount_satang, currency,
channel, raw_payload, meta and user_id in place (charge_id is kept). -/
def applyUpdates (row tx : Transaction) : Transaction :=
  { row with
    userID := tx.userID
    amountSatang := tx.amountSatang
    currency := tx.currency
    channel := tx.channel
    status := tx.status
    failureCode := tx.failureCode
    failureMessage := tx.failureMessage
    rawPayload := tx.rawPayload
    meta := tx.meta }

/-- The atomic insert-or-update keyed on charge_id (Clauses(clause.OnConflict...).Create):
update the row with the same charge id if present, else insert the new row. -/
def ledgerUpsert : List Transaction → Transaction → List Transaction
  | [], tx => [tx]
  | r :: rest, tx =>
      if r.chargeID = tx.chargeID then applyUpdates r tx :: rest
      else r :: ledgerUpsert rest tx

/-- UPDATE users SET balance = balance + amt WHERE id = uid (no-op when the
user row is absent, as in SQL). -/
def creditUser : List (Nat × Rat) → Nat → Rat → List (Nat × Rat)
  | [], _, _ => []
  | (u, b) :: rest, uid, amt =>
      if u = uid then (u, b + amt) :: rest else (u, b) :: creditUser rest uid amt

/-- Read a user's balance (for stating properties). -/
def lookupBalance : List (Nat × Rat) → Nat → Option Rat
  | [], _ => none
  | (u, b) :: rest, uid => if u = uid then some b else lookupBalance rest uid

/-- The numeric value of a decimal digit character, if it is one. -/
def digitVal (c : Char) : Option Nat :=
  if c.isDigit then some (c.toNat - 48) else none

/-- Accumulating base-10 parse over a character list (strict: digits only). -/
def parseNatDigits : List Char → Nat → Option Nat
  | [], acc => some acc
  | c :: rest, acc =>
      match digitVal c with
      | some d => parseNatDigits rest (acc * 10 + d)
      | none => none

/-- Base-10 unsigned decimal parse of a non-empty all-digit string. -/
def strToNat (s : String) : Option Nat :=
  if s.data.isEmpty then none else parseNatDigits s.data 0

/-- strconv.Atoi: base-10 signed decimal parse with an optional sign. -/
def strToInt (s : String) : Option Int :=
  match s.data with
  | '-' :: rest =>
      if rest.isEmpty then none
      else (parseNatDigits rest 0).map (fun nv => -(nv : Int))
  | '+' :: rest =>
      if rest.isEmpty then none
      else (parseNatDigits rest 0).map (fun nv => (nv : Int))
  | _ => (strToNat s).map (fun nv => (nv : Int))

/-- strconv.ParseUint(s, 10, 32): base-10 unsigned parse bounded by 2^32. -/
def parseUint32 (s : String) : Option Nat :=
  match strToNat s with
  | some nv => if nv < 4294967296 then some nv else none
  | none => none

/-- extractUserIDFromCharge: keep an explicitly supplied user id; otherwise
recover one from the charge metadata key "user_id" (string parsed as uint32,
numeric values converted), leaving it absent on failure. -/
def extractUserIDFromCharge (ch : Charge) (userID : Option Nat) : Option Nat :=
  match userID with
  | some u => some u
  | none =>
      match lookupMeta ch.metadata "user_id" with
      | some (.s v) =>
          match parseUint32 v with
          | some nv => some nv
          | none => none
      | some (.n v) => some v.toNat
      | none => none

/-- determineChannel: the charge source's type when present and non-empty,
else the fixed "card" label. -/
def determineChannel (ch : Charge) : String :=
  match ch.source with
  | some src => if src.sourceType = "" then "card" else src.sourceType
  | none => "card"

/-- The Transaction row built from a charge snapshot and the resolved user id. -/
def chargeRow (ch : Charge) (resolvedUserID : Option Nat) : Transaction :=
  { userID := resolvedUserID
    chargeID := ch.id
    amountSatang := ch.amount
    currency := ch.currency
    channel := determineChannel ch
    status := ch.status
    failureCode := ch.failureCode
    failureMessage := ch.failureMessage
    rawPayload := ch
    meta := ch.metadata }

/-- The state transform of upsertTransactionFromCharge once the row write
succeeds: upsert the row, then, whenever the current snapshot status is
"successful" and a user id is resolved, credit the user's balance by
amount/100 THB (a balance-write failure is only logged, leaving balances
unchanged). Note the credit is NOT gated on the previously stored status. -/
def upsertChargeState (db : DBState) (ch : Charge) (userID : Option Nat)
    (balanceWriteFails : Bool) : DBState :=
  let resolved := extractUserIDFromCharge ch userID
  let db1 : DBState := { db with ledger := ledgerUpsert db.ledger (chargeRow ch resolved) }
  match resolved with
  | some u =>
      if ch.status = "successful" then
        if balanceWriteFails then db1
        else { db1 with balances := creditUser db1.balances u ((ch.amount : Rat) / 100) }
      else db1
  | none => db1

/-- upsertTransactionFromCharge: fail when the row upsert fails; otherwise
apply the state transform and return success even if the balance write failed. -/
def upsertTransactionFromCharge (db : DBState) (ch : Charge) (userID : Option Nat)
    (rowUpsertFails balanceWriteFails : Bool) : Except String DBState :=
  if rowUpsertFails then .error "upsert failed"
  else .ok (upsertChargeState db ch userID balanceWriteFails)

/-- Attach the caller-supplied user id into the request metadata under the
fixed key "user_id" (fmt.Sprintf of the numeric id), when one is present. -/
def attachUserID (md : MetaMap) (uid : Option Nat) : MetaMap :=
  match uid with
  | none => md
  | some u => setMeta md "user_id" (.s (toString u))

/-- Go type assertion `v, _ := m[k].(string)`: the string value, else "". -/
def asString (v : Option MetaVal) : String :=
  match v with
  | some (.s sv) => sv
  | _ => ""

/-- Parse of a loosely-typed expiry field: numbers taken as-is, strings via
Atoi (parse failure reported), anything else an unexpected-type error. -/
def parseIntField (v : Option MetaVal) (fieldName : String) : Except String Int :=
  match v with
  | some (.n nv) => .ok nv
  | some (.s sv) =>
      match strToInt sv with
      | some nv => .ok nv
      | none => .error ("invalid " ++ fieldName ++ ": " ++ sv)
  | none => .error ("unexpected type for " ++ fieldName)

/-- Parse of the loosely-typed security code: strings as-is, numbers via Itoa. -/
def parseSecurityCode (v : Option MetaVal) : Except String String :=
  match v with
  | some (.s sv) => .ok sv
  | some (.n nv) => .ok (toString nv)
  | none => .error "unexpected type for security_code"

/-- processCreditCard: attach the user id to metadata; charge directly from a
pre-created token when present, else server-side tokenize the raw card fields
(validation errors before any gateway call) and charge from the new token. -/
def processCreditCard (gw : Gateway) (req : PaymentRequest) :
    Except String Charge × List GwOp :=
  let metadata := attachUserID req.metadata req.userID
  if req.token ≠ "" then
    let op : CreateChargeOp :=
      { amount := req.amount, currency := req.currency, card := req.token,
        source := "", returnURI := req.returnURI, description := req.description,
        metadata := metadata }
    (gw.createCharge op, [.createCharge op])
  else
    match req.card with
    | none => (.error "missing token; either provide token or card for tokenization", [])
    | some cm =>
        match parseIntField cm.expirationMonth "expiration_month" with
        | .error e => (.error e, [])
        | .ok expMonth =>
            match parseIntField cm.expirationYear "expiration_year" with
            | .error e => (.error e, [])
            | .ok expYear =>
                match parseSecurityCode cm.securityCode with
                | .error e => (.error e, [])
                | .ok secCode =>
                    let tokenReq : TokenReq :=
                      { name := asString cm.name, number := asString cm.number,
                        expirationMonth := expMonth, expirationYear := expYear,
                        securityCode := secCode }
                    match gw.createToken tokenReq with
                    | .error e =>
                        (.error ("failed to create token: " ++ e), [.createToken tokenReq])
                    | .ok tokenId =>
                        let op : CreateChargeOp :=
                          { amount := req.amount, currency := req.currency, card := tokenId,
                            source := "", returnURI := req.returnURI,
                            description := req.description, metadata := metadata }
                        (gw.createCharge op, [.createToken tokenReq, .createCharge op])

/-- processPromptPay: attach the user id to metadata, create a promptpay
source, then create the charge from the source id. -/
def processPromptPay (gw : Gateway) (req : PaymentRequest) :
    Except String Charge × List GwOp :=
  let metadata := attachUserID req.metadata req.userID
  match gw.createSource "promptpay" req.amount req.currency with
  | .error e =>
      (.error ("failed to create promptpay source: " ++ e),
       [.createSource "promptpay" req.amount req.currency])
  | .ok srcId =>
      let op : CreateChargeOp :=
        { amount := req.amount, currency := req.currency, card := "",
          source := srcId, returnURI := "", description := req.description,
          metadata := metadata }
      (gw.createCharge op,
       [.createSource "promptpay" req.amount req.currency, .createCharge op])

/-- processInternetBanking: require a bank code and a return address (hard
validation preconditions checked before any gateway call), attach the user id
to metadata, create an internet_banking_<bank> source, then create the charge. -/
def processInternetBanking (gw : Gateway) (req : PaymentRequest) :
    Except String Charge × List GwOp :=
  if req.bank = "" then
    (.error "bank is required for internet_banking (e.g. \"bay\", \"bbl\", \"scb\")", [])
  else if req.returnURI = "" then
    (.error "return_uri is required for internet_banking", [])
  else
    let metadata := attachUserID req.metadata req.userID
    match gw.createSource ("internet_banking_" ++ req.bank) req.amount req.currency with
    | .error e =>
        (.error ("failed to create internet banking source: " ++ e),
         [.createSource ("internet_banking_" ++ req.bank) req.amount req.currency])
    | .ok srcId =>
        let op : CreateChargeOp :=
          { amount := req.amount, currency := req.currency, card := "",
            source := srcId, returnURI := req.returnURI,
            description := req.description, metadata := metadata }
        (gw.createCharge op,
         [.createSource ("internet_banking_" ++ req.bank) req.amount req.currency,
          .createCharge op])

/-- getUserIDFromRequest: the body user_id when present, else the X-User-ID
header (non-empty, uint32-parsed), else the user_id query parameter. -/
def getUserIDFromRequest (req : PaymentRequest) (headerUserID queryUserID : String) :
    Option Nat :=
  match req.userID with
  | some u => some u
  | none =>
      match (if headerUserID = "" then none else parseUint32 headerUserID) with
      | some u => some u
      | none =>
          match (if queryUserID = "" then none else parseUint32 queryUserID) with
          | some u => some u
          | none => none

/-- The HTTP-level response of the CreateCharge endpoint. -/
inductive ChargeResponse where
  | jsonCharge (ch : Charge)
  | err (code : Nat) (msg : String)
deriving DecidableEq, Repr

/-- The three payment method tags accepted by CreateCharge's switch. -/
def supportedPaymentTypes : List String :=
  ["credit_card", "promptpay", "internet_banking"]

/-- The per-method dispatch switch of CreateCharge (the three supported arms). -/
def dispatchCharge (gw : Gateway) (req : PaymentRequest) :
    Except String Charge × List GwOp :=
  if req.paymentType = "credit_card" then processCreditCard gw req
  else if req.paymentType = "promptpay" then processPromptPay gw req
  else if req.paymentType = "internet_banking" then processInternetBanking gw req
  else (.error "unsupported", [])

/-- PaymentHandler.CreateCharge: validate amount/currency, resolve the user
id, dispatch by payment type (unknown tags get a 400 naming the type),
surface processor errors as 500, then upsert the local transaction row —
an upsert failure is logged and deliberately does not fail the response. -/
def createChargeHandler (gw : Gateway) (db : DBState) (req : PaymentRequest)
    (headerUserID queryUserID : String) (rowUpsertFails balanceWriteFails : Bool) :
    ChargeResponse × DBState × List GwOp :=
  if req.amount ≤ 0 ∨ req.currency = "" then
    (.err 400 "amount and currency are required", db, [])
  else
    let userID := getUserIDFromRequest req headerUserID queryUserID
    if req.paymentType ∈ supportedPaymentTypes then
      match dispatchCharge gw req with
      | (.error e, trace) => (.err 500 e, db, trace)
      | (.ok ch, trace) =>
          match upsertTransactionFromCharge db ch userID rowUpsertFails balanceWriteFails with
          | .error _ => (.jsonCharge ch, db, trace)
          | .ok db1 => (.jsonCharge ch, db1, trace)
    else (.err 400 ("unsupported paymentType: " ++ req.paymentType), db, [])

/-- An inbound webhook envelope body. The backend's minimal parse reads only
`object` and `id`; `bodyStatus` and `bodyAmount` stand for whatever outcome
the untrusted body additionally claims, which the parse never extracts. -/
structure Envelope where
  object : String
  id : String
  bodyStatus : String
  bodyAmount : Int
deriving DecidableEq, Repr

/-- The minimal envelope parse: only the object discriminator and the id. -/
def parseEnvelope (e : Envelope) : String × String := (e.object, e.id)

/-- Shared tail of the two-shape webhook handler: independently re-fetch the
charge by id (5xx on failure, so the sender retries), upsert it (5xx on
failure), and acknowledge with 200. -/
def retrieveAndUpsert (gw : Gateway) (db : DBState) (chargeID : String)
    (rowUpsertFails balanceWriteFails : Bool) (trace : List GwOp) :
    Nat × DBState × List GwOp :=
  match gw.retrieveCharge chargeID with
  | .error _ => (500, db, trace ++ [.retrieveCharge chargeID])
  | .ok ch =>
      match upsertTransactionFromCharge db ch none rowUpsertFails balanceWriteFails with
      | .error _ => (500, db, trace ++ [.retrieveCharge chargeID])
      | .ok db1 => (200, db1, trace ++ [.retrieveCharge chargeID])

/-- PaymentHandler.HandleWebhook (two-shape variant): 400 on a missing id;
event-shaped envelopes are verified via RetrieveEvent (500 on failure) and
ignored with 200 unless the embedded data is charge-shaped with a non-empty
id; charge-shaped envelopes use the id directly; other object types are
ignored with 200. The verified charge id then goes through retrieveAndUpsert. -/
def paymentHandlerWebhook (gw : Gateway) (db : DBState) (env : Envelope)
    (rowUpsertFails balanceWriteFails : Bool) : Nat × DBState × List GwOp :=
  let parsed := parseEnvelope env
  if parsed.2 = "" then (400, db, [])
  else if parsed.1 = "event" then
    match gw.retrieveEvent parsed.2 with
    | .error _ => (500, db, [.retrieveEvent parsed.2])
    | .ok ev =>
        if ev.data.object = "charge" ∧ ev.data.id ≠ "" then
          retrieveAndUpsert gw db ev.data.id rowUpsertFails balanceWriteFails
            [.retrieveEvent parsed.2]
        else (200, db, [.retrieveEvent parsed.2])
  else if parsed.1 = "charge" then
    retrieveAndUpsert gw db parsed.2 rowUpsertFails balanceWriteFails []
  else (200, db, [])

/-- The event-only envelope of the net/http WebhookHandler (only an id). -/
structure EventEnvelope where
  id : String
deriving DecidableEq, Repr

/-- The fixed allow-list of charge-lifecycle event keys. -/
def chargeEventKeys : List String :=
  ["charge.complete", "charge.capture", "charge.failed", "charge.expired", "charge.reversed"]

/-- WebhookHandler.HandleWebhook (net/http variant): 400 on a missing id or
on RetrieveEvent failure; event keys outside the allow-list, non-charge
embedded data, RetrieveCharge failure and upsert failure all fall through to
a 200 acknowledgement (the upsert error is only logged). -/
def webhookHandlerHTTP (gw : Gateway) (db : DBState) (env : EventEnvelope)
    (rowUpsertFails balanceWriteFails : Bool) : Nat × DBState × List GwOp :=
  if env.id = "" then (400, db, [])
  else
    match gw.retrieveEvent env.id with
    | .error _ => (400, db, [.retrieveEvent env.id])
    | .ok ev =>
        if ev.key ∈ chargeEventKeys then
          if ev.data.object = "charge" ∧ ev.data.id ≠ "" then
            match gw.retrieveCharge ev.data.id with
            | .error _ => (200, db, [.retrieveEvent env.id, .retrieveCharge ev.data.id])
            | .ok ch =>
                match upsertTransactionFromCharge db ch none rowUpsertFails balanceWriteFails with
                | .error _ => (200, db, [.retrieveEvent env.id, .retrieveCharge ev.data.id])
                | .ok db1 => (200, db1, [.retrieveEvent env.id, .retrieveCharge ev.data.id])
          else (200, db, [.retrieveEvent env.id])
        else (200, db, [.retrieveEvent env.id])

/-- N-fold application of the (successful) upsert of the same charge snapshot. -/
def upsertIter (ch : Charge) (uid : Option Nat) : Nat → DBState → DBState
  | 0, db => db
  | n + 1, db => upsertIter ch uid n (upsertChargeState db ch uid false)

/-! ## Ledger lemmas -/

theorem lookupMeta_setMeta (m : MetaMap) (k : String) (v : MetaVal) :
    lookupMeta (setMeta m k v) k = some v := by
  induction m with
  | nil => simp [setMeta, lookupMeta]
  | cons kv rest ih =>
      obtain ⟨k', v'⟩ := kv
      by_cases h : k' = k
      · simp [setMeta, h, lookupMeta]
      · simp [setMeta, h, lookupMeta, ih]

theorem applyUpdates_chargeID (row tx : Transaction) :
    (applyUpdates row tx).chargeID = row.chargeID := rfl

theorem applyUpdates_eq_of_key (row tx : Transaction) (h : row.chargeID = tx.chargeID) :
    applyUpdates row tx = tx := by
  cases row; cases tx
  simp only [applyUpdates] at *
  simp_all

theorem ledgerUpsert_filter (L : List Transaction) (tx : Transaction)
    (hU : ledgerUnique L) :
    (ledgerUpsert L tx).filter (fun t => t.chargeID == tx.chargeID) = [tx] := by
  induction L with
  | nil => simp [ledgerUpsert]
  | cons r rest ih =>
      rw [ledgerUnique, List.pairwise_cons] at hU
      obtain ⟨hr, hrest⟩ := hU
      by_cases h : r.chargeID = tx.chargeID
      · have hnil : rest.filter (fun t => t.chargeID == tx.chargeID) = [] := by
          rw [List.filter_eq_nil_iff]
          intro b hb
          have := hr b hb
          simp only [beq_iff_eq]
          rw [← h]
          exact fun hc => this hc.symm
        simp [ledgerUpsert, h, applyUpdates_eq_of_key r tx h, hnil]
      · simp [ledgerUpsert, h, ih hrest]

theorem ledgerUpsert_idem (L : List Transaction) (tx : Transaction) :
    ledgerUpsert (ledgerUpsert L tx) tx = ledgerUpsert L tx := by
  induction L with
  | nil => simp [ledgerUpsert, applyUpdates_eq_of_key tx tx rfl]
  | cons r rest ih =>
      by_cases h : r.chargeID = tx.chargeID
      · have h2 : (applyUpdates r tx).chargeID = tx.chargeID := by
          rw [applyUpdates_chargeID]; exact h
        simp [ledgerUpsert, h, h2, applyUpdates_eq_of_key _ tx h2,
          applyUpdates_eq_of_key r tx h, applyUpdates_eq_of_key tx tx rfl]
      · simp [ledgerUpsert, h, ih]

theorem mem_ledgerUpsert_chargeID (L : List Transaction) (tx t : Transaction)
    (ht : t ∈ ledgerUpsert L tx) :
    t.chargeID = tx.chargeID ∨ ∃ r ∈ L, t.chargeID = r.chargeID := by
  induction L with
  | nil => simp [ledgerUpsert] at ht; simp [ht]
  | cons r rest ih =>
      by_cases h : r.chargeID = tx.chargeID
      · simp only [ledgerUpsert, if_pos h, List.mem_cons] at ht
        rcases ht with ht | ht
        · exact Or.inl (by rw [ht, applyUpdates_chargeID, h])
        · exact Or.inr ⟨t, List.mem_cons_of_mem r ht, rfl⟩
      · simp only [ledgerUpsert, if_neg h, List.mem_cons] at ht
        rcases ht with ht | ht
        · exact Or.inr ⟨r, List.mem_cons_self r rest, by rw [ht]⟩
        · rcases ih ht with h1 | ⟨r', hr', h2⟩
          · exact Or.inl h1
          · exact Or.inr ⟨r', List.mem_cons_of_mem r hr', h2⟩

theorem ledgerUpsert_unique (L : List Transaction) (tx : Transaction)
    (hU : ledgerUnique L) : ledgerUnique (ledgerUpsert L tx) := by
  induction L with
  | nil => simp [ledgerUpsert, ledgerUnique]
  | cons r rest ih =>
      rw [ledgerUnique, List.pairwise_cons] at hU
      obtain ⟨hr, hrest⟩ := hU
      by_cases h : r.chargeID = tx.chargeID
      · rw [ledgerUpsert, if_pos h, ledgerUnique, List.pairwise_cons]
        refine ⟨fun b hb => ?_, hrest⟩
        rw [applyUpdates_chargeID]
        exact hr b hb
      · rw [ledgerUpsert, if_neg h, ledgerUnique, List.pairwise_cons]
        refine ⟨fun b hb => ?_, ih hrest⟩
        rcases mem_ledgerUpsert_chargeID rest tx b hb with h1 | ⟨r', hr', h2⟩
        · rw [h1]; exact h
        · rw [h2]; exact hr r' hr'

theorem upsertChargeState_ledger (db : DBState) (ch : Charge) (uid : Option Nat)
    (bf : Bool) :
    (upsertChargeState db ch uid bf).ledger
      = ledgerUpsert db.ledger (chargeRow ch (extractUserIDFromCharge ch uid)) := by
  unfold upsertChargeState
  cases h : extractUserIDFromCharge ch uid with
  | none => simp [h]
  | some u =>
      simp only [h]
      by_cases hs : ch.status = "successful"
      · cases bf <;> simp [hs]
      · simp [hs]

theorem upsertIter_ledger_succ (ch : Charge) (uid : Option Nat) :
    ∀ (n : Nat) (db : DBState),
      (upsertIter ch uid (n + 1) db).ledger
        = ledgerUpsert db.ledger (chargeRow ch (extractUserIDFromCharge ch uid)) := by
  intro n
  induction n with
  | zero => intro db; simp [upsertIter, upsertChargeState_ledger]
  | succ m ih =>
      intro db
      show (upsertIter ch uid (m + 1) (upsertChargeState db ch uid false)).ledger = _
      rw [ih (upsertChargeState db ch uid false), upsertChargeState_ledger,
        ledgerUpsert_idem]

/-! ## Concrete fixtures -/

/-- An empty database. -/
def dbEmpty : DBState := { ledger := [], balances := [] }

/-- A database holding only user 7 with a zero balance. -/
def db0 : DBState := { ledger := [], balances := [(7, 0)] }

/-- A successful charge snapshot of 100 satang carrying user 7 in metadata. -/
def chSucc : Charge :=
  { id := "chrg_1", amount := 100, currency := "THB", status := "successful",
    failureCode := none, failureMessage := none, source := none,
    metadata := [("user_id", .s "7")] }

/-- A gateway whose event store verifies evt_1 as a charge.complete event for
chrg_1, but whose charge-retrieval endpoint is down. -/
def gwChargeDown : Gateway :=
  { createToken := fun _ => .error "unused"
    createSource := fun _ _ _ => .error "unused"
    createCharge := fun _ => .error "unused"
    retrieveCharge := fun _ => .error "gateway unreachable"
    retrieveEvent := fun eid =>
      if eid = "evt_1" then
        .ok { key := "charge.complete", data := { object := "charge", id := "chrg_9" } }
      else .error "no such event" }

/-- A gateway that verifies every event as a charge.create event (a key
outside the charge-lifecycle allow-list) embedding charge chrg_9, and serves
a pending snapshot of any charge. -/
def gwCreateKey : Gateway :=
  { createToken := fun _ => .error "unused"
    createSource := fun _ _ _ => .error "unused"
    createCharge := fun _ => .error "unused"
    retrieveCharge := fun cid =>
      .ok { id := cid, amount := 5000, currency := "THB", status := "pending",
            failureCode := none, failureMessage := none, source := none, metadata := [] }
    retrieveEvent := fun _ =>
      .ok { key := "charge.create", data := { object := "charge", id := "chrg_9" } } }

/-- An event-shaped envelope pointing at evt_9. -/
def envC5 : Envelope := { object := "event", id := "evt_9", bodyStatus := "", bodyAmount := 0 }

/-! ## Claims -/

/-- C1: the claim states the balance credit is gated on the transition into
"successful" (previous stored status ≠ successful), so re-applying the same
successful snapshot leaves the balance unchanged. The code applies the credit
unconditionally on every successful observation: after a first upsert of a
successful 100-satang charge for user 7 the stored status is already
"successful" and the balance is 1 THB, yet re-applying the identical snapshot
credits again, raising the balance to 2 THB. -/
theorem c1_reapplied_successful_snapshot_credits_again :
    lookupBalance (upsertChargeState db0 chSucc none false).balances 7 = some 1
    ∧ (∀ t ∈ (upsertChargeState db0 chSucc none false).ledger, t.status = "successful")
    ∧ lookupBalance
        (upsertChargeState (upsertChargeState db0 chSucc none false) chSucc none false).balances 7
        = some 2 := by
  refine ⟨?_, ?_, ?_⟩
  · have hb : (upsertChargeState db0 chSucc none false).balances
        = [(7, 0 + (100 : Rat) / 100)] := rfl
    rw [hb]
    norm_num [lookupBalance]
  · decide
  · have hb2 : (upsertChargeState (upsertChargeState db0 chSucc none false)
        chSucc none false).balances
        = [(7, 0 + (100 : Rat) / 100 + (100 : Rat) / 100)] := rfl
    rw [hb2]
    norm_num [lookupBalance]

/-- C4: the claim states every gateway-call failure during webhook processing
yields TransientFailure (a 5xx), never a 200. In the net/http WebhookHandler,
with a verified charge.complete event for chrg_9 but a failing RetrieveCharge,
the handler acknowledges with 200 (and no ledger write), so the sender never
retries the lost notification. -/
theorem c4_retrieve_charge_failure_acknowledged_with_200 :
    webhookHandlerHTTP gwChargeDown dbEmpty { id := "evt_1" } false false
      = (200, dbEmpty, [.retrieveEvent "evt_1", .retrieveCharge "chrg_9"]) := by decide

/-- C5 counterexample: the claim states any verified event key outside the
allow-list is Ignored with no RetrieveCharge and no ledger write. The
two-shape PaymentHandler.HandleWebhook never consults the event key: a
verified "charge.create" event (outside the allow-list) whose embedded data
is charge-shaped is fully processed — RetrieveCharge is issued and a ledger
row is written. -/
theorem c5_nonallowlisted_key_still_processed :
    "charge.create" ∉ chargeEventKeys
    ∧ (paymentHandlerWebhook gwCreateKey dbEmpty envC5 false false).1 = 200
    ∧ GwOp.retrieveCharge "chrg_9" ∈ (paymentHandlerWebhook gwCreateKey dbEmpty envC5 false false).2.2
    ∧ (paymentHandlerWebhook gwCreateKey dbEmpty envC5 false false).2.1.ledger ≠ [] := by
  decide

/-- C2: Upsert is idempotent: N applications (N ≥ 1) of the same charge
snapshot leave exactly one ledger row keyed by the charge id, whose updatable
fields are those derived from the snapshot (chargeRow), the ledger equal to
the one after a single application, and the charge-id unique index intact. -/
theorem c2_upsert_idempotent (db : DBState) (ch : Charge) (uid : Option Nat) (N : Nat)
    (hN : 1 ≤ N) (hU : ledgerUnique db.ledger) :
    (upsertIter ch uid N db).ledger.filter (fun t => t.chargeID == ch.id)
        = [chargeRow ch (extractUserIDFromCharge ch uid)]
    ∧ (upsertIter ch uid N db).ledger = (upsertIter ch uid 1 db).ledger
    ∧ ledgerUnique (upsertIter ch uid N db).ledger
    ∧ (∀ (L : List Transaction) (tx : Transaction),
        ledgerUnique L → ledgerUnique (ledgerUpsert L tx)) := by
  obtain ⟨m, rfl⟩ : ∃ m, N = m + 1 := ⟨N - 1, (Nat.succ_pred_eq_of_pos hN).symm⟩
  rw [upsertIter_ledger_succ, upsertIter_ledger_succ]
  exact ⟨ledgerUpsert_filter db.ledger (chargeRow ch (extractUserIDFromCharge ch uid)) hU,
    rfl, ledgerUpsert_unique _ _ hU, fun L tx h => ledgerUpsert_unique L tx h⟩

theorem c2_upsert_idempotent_witness :
    1 ≤ 3 ∧ ledgerUnique dbEmpty.ledger
    ∧ ((upsertIter chSucc none 3 dbEmpty).ledger.filter (fun t => t.chargeID == chSucc.id)
          = [chargeRow chSucc (extractUserIDFromCharge chSucc none)]
        ∧ (upsertIter chSucc none 3 dbEmpty).ledger = (upsertIter chSucc none 1 dbEmpty).ledger
        ∧ ledgerUnique (upsertIter chSucc none 3 dbEmpty).ledger
        ∧ (∀ (L : List Transaction) (tx : Transaction),
            ledgerUnique L → ledgerUnique (ledgerUpsert L tx))) :=
  ⟨by decide, List.Pairwise.nil,
    c2_upsert_idempotent dbEmpty chSucc none 3 (by decide) List.Pairwise.nil⟩

/-- C3: webhook reconciliation depends on the envelope body only through the
extracted (object, id) pair — two envelopes differing in any other body field
(claimed status/amount) produce identical outcome, database state and gateway
trace — and the stored status and amount of the reconciled row come from the
independently retrieved charge, not from the body. -/
theorem c3_reconcile_independent_of_envelope_body (gw : Gateway) (db : DBState)
    (e1 e2 : Envelope) (uf bf : Bool) (ch : Charge)
    (hobj : e1.object = e2.object) (hid : e1.id = e2.id) :
    paymentHandlerWebhook gw db e1 uf bf = paymentHandlerWebhook gw db e2 uf bf
    ∧ (e1.object = "charge" → e1.id ≠ "" → uf = false → ledgerUnique db.ledger →
        gw.retrieveCharge e1.id = .ok ch →
        (paymentHandlerWebhook gw db e1 uf bf).2.1.ledger.filter
            (fun t => t.chargeID == ch.id)
          = [chargeRow ch (extractUserIDFromCharge ch none)]) := by
  constructor
  · have hpe : parseEnvelope e1 = parseEnvelope e2 := by
      simp [parseEnvelope, hobj, hid]
    unfold paymentHandlerWebhook
    rw [hpe]
  · intro hco hne huf hU hrc
    subst huf
    have hred : paymentHandlerWebhook gw db e1 false bf
        = retrieveAndUpsert gw db e1.id false bf [] := by
      simp [paymentHandlerWebhook, parseEnvelope, hco, hne]
    have hred2 : retrieveAndUpsert gw db e1.id false bf []
        = (200, upsertChargeState db ch none bf, [GwOp.retrieveCharge e1.id]) := by
      simp [retrieveAndUpsert, hrc, upsertTransactionFromCharge]
    rw [hred, hred2]
    simpa [upsertChargeState_ledger] using
      ledgerUpsert_filter db.ledger (chargeRow ch (extractUserIDFromCharge ch none)) hU

/-- retrieveAndUpsert always issues the RetrieveCharge operation for the id
it was given, whatever the gateway and upsert outcomes. -/
theorem retrieveCharge_mem_retrieveAndUpsert (gw : Gateway) (db : DBState)
    (cid : String) (uf bf : Bool) (tr : List GwOp) :
    GwOp.retrieveCharge cid ∈ (retrieveAndUpsert gw db cid uf bf tr).2.2 := by
  unfold retrieveAndUpsert
  split
  · simp
  · split <;> simp

/-- C5 amended: the event-only WebhookHandler ignores (acknowledges 200, no
ledger write, no RetrieveCharge) any verified event whose key is outside the
fixed allow-list, and likewise any verified event whose embedded data object
is not charge-shaped. The two-shape PaymentHandler.HandleWebhook never
consults the event key: for event-shaped envelopes it ignores (200, no write,
no RetrieveCharge) exactly those whose embedded data is not charge-shaped —
when the data is charge-shaped it proceeds to RetrieveCharge and the upsert
regardless of the event key. -/
theorem c5_amended_key_filter (gwA gwB gwC gwD : Gateway) (db : DBState)
    (envA envB : EventEnvelope) (envC envD : Envelope) (uf bf : Bool)
    (evA evB evC evD : Event)
    (hA1 : envA.id ≠ "") (hA2 : gwA.retrieveEvent envA.id = .ok evA)
    (hA3 : evA.key ∉ chargeEventKeys)
    (hB1 : envB.id ≠ "") (hB2 : gwB.retrieveEvent envB.id = .ok evB)
    (hB3 : ¬(evB.data.object = "charge" ∧ evB.data.id ≠ ""))
    (hC1 : envC.object = "event") (hC2 : envC.id ≠ "")
    (hC3 : gwC.retrieveEvent envC.id = .ok evC)
    (hC4 : ¬(evC.data.object = "charge" ∧ evC.data.id ≠ ""))
    (hD1 : envD.object = "event") (hD2 : envD.id ≠ "")
    (hD3 : gwD.retrieveEvent envD.id = .ok evD)
    (hD4 : evD.data.object = "charge") (hD5 : evD.data.id ≠ "") :
    webhookHandlerHTTP gwA db envA uf bf = (200, db, [.retrieveEvent envA.id])
    ∧ webhookHandlerHTTP gwB db envB uf bf = (200, db, [.retrieveEvent envB.id])
    ∧ paymentHandlerWebhook gwC db envC uf bf = (200, db, [.retrieveEvent envC.id])
    ∧ (paymentHandlerWebhook gwD db envD uf bf
          = retrieveAndUpsert gwD db evD.data.id uf bf [.retrieveEvent envD.id]
        ∧ GwOp.retrieveCharge evD.data.id
            ∈ (paymentHandlerWebhook gwD db envD uf bf).2.2) := by
  have hD : paymentHandlerWebhook gwD db envD uf bf
      = retrieveAndUpsert gwD db evD.data.id uf bf [.retrieveEvent envD.id] := by
    simp [paymentHandlerWebhook, parseEnvelope, hD1, hD2, hD3, hD4, hD5]
  refine ⟨?_, ?_, ?_, hD, ?_⟩
  · simp [webhookHandlerHTTP, hA1, hA2, hA3]
  · by_cases hk : evB.key ∈ chargeEventKeys
    · simp [webhookHandlerHTTP, hB1, hB2, hk, hB3]
    · simp [webhookHandlerHTTP, hB1, hB2, hk]
  · simp [paymentHandlerWebhook, parseEnvelope, hC1, hC2, hC3, hC4]
  · rw [hD]
    exact retrieveCharge_mem_retrieveAndUpsert gwD db evD.data.id uf bf
      [.retrieveEvent envD.id]

/-- C6: an internet_banking request missing the bank code or the return
address fails with a validation error before any gateway call is issued
(the operation trace is empty and no charge is produced). -/
theorem c6_internet_banking_validation_before_gateway (gw : Gateway)
    (req : PaymentRequest) (h : req.bank = "" ∨ req.returnURI = "") :
    (processInternetBanking gw req).2 = []
    ∧ ∀ ch, (processInternetBanking gw req).1 ≠ Except.ok ch := by
  by_cases hb : req.bank = ""
  · simp [processInternetBanking, hb]
  · rcases h with h | h
    · exact absurd h hb
    · simp [processInternetBanking, hb, h]

/-! ## Per-processor metadata lemmas (every CreateCharge op submitted carries
the metadata assembled at the top of the processor) -/

theorem processCreditCard_meta (gw : Gateway) (req : PaymentRequest) :
    ∀ op ∈ (processCreditCard gw req).2, ∀ c, op = GwOp.createCharge c →
      c.metadata = attachUserID req.metadata req.userID := by
  intro op hop c hc
  subst hc
  simp only [processCreditCard] at hop
  repeat' split at hop
  all_goals simp_all

theorem processPromptPay_meta (gw : Gateway) (req : PaymentRequest) :
    ∀ op ∈ (processPromptPay gw req).2, ∀ c, op = GwOp.createCharge c →
      c.metadata = attachUserID req.metadata req.userID := by
  intro op hop c hc
  subst hc
  simp only [processPromptPay] at hop
  repeat' split at hop
  all_goals simp_all

theorem processInternetBanking_meta (gw : Gateway) (req : PaymentRequest) :
    ∀ op ∈ (processInternetBanking gw req).2, ∀ c, op = GwOp.createCharge c →
      c.metadata = attachUserID req.metadata req.userID := by
  intro op hop c hc
  subst hc
  simp only [processInternetBanking] at hop
  repeat' split at hop
  all_goals simp_all

/-- Every CreateCharge operation in a trace carries the user id under the
fixed metadata key "user_id" (as the decimal string the backend writes). -/
def traceChargeOpsCarryUser (trace : List GwOp) (u : Nat) : Prop :=
  ∀ op ∈ trace, ∀ c, op = GwOp.createCharge c →
    lookupMeta c.metadata "user_id" = some (MetaVal.s (toString u))

/-- C8: whenever the request carries a caller-supplied user identifier, all
three dispatch paths (card, promptpay, internet_banking) attach it into the
charge metadata under the fixed key "user_id" before any charge submission:
every CreateCharge operation they issue to the gateway carries it. -/
theorem c8_user_id_attached_on_all_paths (gw : Gateway) (req : PaymentRequest) (u : Nat)
    (hu : req.userID = some u) :
    traceChargeOpsCarryUser (processCreditCard gw req).2 u
    ∧ traceChargeOpsCarryUser (processPromptPay gw req).2 u
    ∧ traceChargeOpsCarryUser (processInternetBanking gw req).2 u := by
  have hmeta : lookupMeta (attachUserID req.metadata req.userID) "user_id"
      = some (MetaVal.s (toString u)) := by
    rw [hu]
    exact lookupMeta_setMeta req.metadata _ _
  unfold traceChargeOpsCarryUser
  refine ⟨fun op hop c hc => ?_, fun op hop c hc => ?_, fun op hop c hc => ?_⟩
  · rw [processCreditCard_meta gw req op hop c hc]; exact hmeta
  · rw [processPromptPay_meta gw req op hop c hc]; exact hmeta
  · rw [processInternetBanking_meta gw req op hop c hc]; exact hmeta

/-! ## Further fixtures -/

/-- The pending snapshot gwCreateKey serves for charge chrg_2. -/
def chPending2 : Charge :=
  { id := "chrg_2", amount := 5000, currency := "THB", status := "pending",
    failureCode := none, failureMessage := none, source := none, metadata := [] }

/-- A charge-shaped envelope for chrg_2 whose body claims a successful outcome. -/
def env3a : Envelope :=
  { object := "charge", id := "chrg_2", bodyStatus := "successful", bodyAmount := 999999 }

/-- The same envelope with a different claimed body outcome. -/
def env3b : Envelope :=
  { object := "charge", id := "chrg_2", bodyStatus := "failed", bodyAmount := 0 }

/-- The verified event gwCreateKey returns (key outside the allow-list). -/
def evCreate : Event :=
  { key := "charge.create", data := { object := "charge", id := "chrg_9" } }

/-- A verified allow-listed event whose embedded data is not charge-shaped. -/
def evCustomer : Event :=
  { key := "charge.complete", data := { object := "customer", id := "cust_1" } }

/-- A gateway whose events verify to evCustomer (non-charge embedded data). -/
def gwNonCharge : Gateway :=
  { createToken := fun _ => .error "unused"
    createSource := fun _ _ _ => .error "unused"
    createCharge := fun _ => .error "unused"
    retrieveCharge := fun _ => .error "unused"
    retrieveEvent := fun _ => .ok evCustomer }

/-- The event-only envelope pointing at evt_9. -/
def envEvt9 : EventEnvelope := { id := "evt_9" }

/-- The event-only envelope pointing at evt_8. -/
def envEvt8E : EventEnvelope := { id := "evt_8" }

/-- An event-shaped envelope pointing at evt_8. -/
def envEvt8 : Envelope := { object := "event", id := "evt_8", bodyStatus := "", bodyAmount := 0 }

/-- The charge produced by gwOK's CreateCharge endpoint. -/
def chPromptPayOK : Charge :=
  { id := "chrg_pp", amount := 10000, currency := "THB", status := "pending",
    failureCode := none, failureMessage := none,
    source := some { sourceType := "promptpay" }, metadata := [("user_id", .s "7")] }

/-- An all-success gateway. -/
def gwOK : Gateway :=
  { createToken := fun _ => .ok "tokn_1"
    createSource := fun _ _ _ => .ok "src_1"
    createCharge := fun _ => .ok chPromptPayOK
    retrieveCharge := fun _ => .ok chSucc
    retrieveEvent := fun _ =>
      .ok { key := "charge.complete", data := { object := "charge", id := "chrg_1" } } }

/-- A valid promptpay request from user 7. -/
def reqPP : PaymentRequest :=
  { amount := 10000, currency := "THB", paymentType := "promptpay", token := "",
    returnURI := "", description := "", metadata := [], card := none, bank := "",
    userID := some 7 }

/-- An internet_banking request missing the bank code. -/
def reqIBNoBank : PaymentRequest :=
  { amount := 10000, currency := "THB", paymentType := "internet_banking", token := "",
    returnURI := "https://app.example/return", description := "", metadata := [],
    card := none, bank := "", userID := some 7 }

/-- A request with an unsupported payment method tag. -/
def reqBadType : PaymentRequest :=
  { amount := 10000, currency := "THB", paymentType := "paypal", token := "",
    returnURI := "", description := "", metadata := [], card := none, bank := "",
    userID := none }

/-- A charge-shaped envelope pointing at chrg_1. -/
def envCharge1 : Envelope :=
  { object := "charge", id := "chrg_1", bodyStatus := "", bodyAmount := 0 }

/-! ## Remaining claims and witnesses -/

theorem c3_reconcile_independent_of_envelope_body_witness :
    env3a.object = env3b.object ∧ env3a.id = env3b.id
    ∧ (paymentHandlerWebhook gwCreateKey dbEmpty env3a false false
          = paymentHandlerWebhook gwCreateKey dbEmpty env3b false false
      ∧ (env3a.object = "charge" → env3a.id ≠ "" → false = false →
          ledgerUnique dbEmpty.ledger →
          gwCreateKey.retrieveCharge env3a.id = .ok chPending2 →
          (paymentHandlerWebhook gwCreateKey dbEmpty env3a false false).2.1.ledger.filter
              (fun t => t.chargeID == chPending2.id)
            = [chargeRow chPending2 (extractUserIDFromCharge chPending2 none)])) :=
  ⟨rfl, rfl, c3_reconcile_independent_of_envelope_body gwCreateKey dbEmpty env3a env3b
      false false chPending2 rfl rfl⟩

theorem c5_amended_key_filter_witness :
    (envEvt9.id ≠ "" ∧ gwCreateKey.retrieveEvent envEvt9.id = .ok evCreate
      ∧ evCreate.key ∉ chargeEventKeys
      ∧ envEvt8E.id ≠ "" ∧ gwNonCharge.retrieveEvent envEvt8E.id = .ok evCustomer
      ∧ ¬(evCustomer.data.object = "charge" ∧ evCustomer.data.id ≠ "")
      ∧ envEvt8.object = "event" ∧ envEvt8.id ≠ ""
      ∧ gwNonCharge.retrieveEvent envEvt8.id = .ok evCustomer
      ∧ envC5.object = "event" ∧ envC5.id ≠ ""
      ∧ gwCreateKey.retrieveEvent envC5.id = .ok evCreate
      ∧ evCreate.data.object = "charge" ∧ evCreate.data.id ≠ "")
    ∧ (webhookHandlerHTTP gwCreateKey dbEmpty envEvt9 false false
          = (200, dbEmpty, [.retrieveEvent envEvt9.id])
      ∧ webhookHandlerHTTP gwNonCharge dbEmpty envEvt8E false false
          = (200, dbEmpty, [.retrieveEvent envEvt8E.id])
      ∧ paymentHandlerWebhook gwNonCharge dbEmpty envEvt8 false false
          = (200, dbEmpty, [.retrieveEvent envEvt8.id])
      ∧ (paymentHandlerWebhook gwCreateKey dbEmpty envC5 false false
            = retrieveAndUpsert gwCreateKey dbEmpty evCreate.data.id false false
                [.retrieveEvent envC5.id]
          ∧ GwOp.retrieveCharge evCreate.data.id
              ∈ (paymentHandlerWebhook gwCreateKey dbEmpty envC5 false false).2.2)) :=
  ⟨⟨by decide, rfl, by decide, by decide, rfl, by decide, rfl, by decide, rfl,
     rfl, by decide, rfl, rfl, by decide⟩,
    c5_amended_key_filter gwCreateKey gwNonCharge gwNonCharge gwCreateKey dbEmpty
      envEvt9 envEvt8E envEvt8 envC5 false false evCreate evCustomer evCustomer evCreate
      (by decide) rfl (by decide) (by decide) rfl (by decide) rfl (by decide) rfl
      (by decide) rfl (by decide) rfl rfl (by decide)⟩

theorem c6_internet_banking_validation_before_gateway_witness :
    (reqIBNoBank.bank = "" ∨ reqIBNoBank.returnURI = "")
    ∧ ((processInternetBanking gwOK reqIBNoBank).2 = []
      ∧ ∀ ch, (processInternetBanking gwOK reqIBNoBank).1 ≠ Except.ok ch) :=
  ⟨Or.inl rfl,
    c6_internet_banking_validation_before_gateway gwOK reqIBNoBank (Or.inl rfl)⟩

/-- C7: when dispatch succeeds at the gateway, CreateCharge returns the
created charge to the caller whether or not the local ledger upsert fails —
the persistence failure never changes the response. -/
theorem c7_remote_charge_reported_despite_local_write_failure (gw : Gateway)
    (db : DBState) (req : PaymentRequest) (hdr qry : String) (bf : Bool) (ch : Charge)
    (hA : 0 < req.amount) (hC : req.currency ≠ "")
    (hT : req.paymentType ∈ supportedPaymentTypes)
    (hD : (dispatchCharge gw req).1 = .ok ch) :
    (createChargeHandler gw db req hdr qry true bf).1 = .jsonCharge ch
    ∧ (createChargeHandler gw db req hdr qry false bf).1 = .jsonCharge ch := by
  have hval : ¬(req.amount ≤ 0 ∨ req.currency = "") := by
    rintro (h | h)
    · exact absurd h (not_le.mpr hA)
    · exact hC h
  rcases hdc : dispatchCharge gw req with ⟨res, tr⟩
  rw [hdc] at hD
  simp only at hD
  subst hD
  constructor <;> simp [createChargeHandler, hval, hT, hdc, upsertTransactionFromCharge]

theorem c7_remote_charge_reported_despite_local_write_failure_witness :
    (0 < reqPP.amount ∧ reqPP.currency ≠ ""
      ∧ reqPP.paymentType ∈ supportedPaymentTypes
      ∧ (dispatchCharge gwOK reqPP).1 = .ok chPromptPayOK)
    ∧ ((createChargeHandler gwOK db0 reqPP "" "" true false).1 = .jsonCharge chPromptPayOK
      ∧ (createChargeHandler gwOK db0 reqPP "" "" false false).1 = .jsonCharge chPromptPayOK) :=
  ⟨⟨by decide, by decide, by decide, rfl⟩,
    c7_remote_charge_reported_despite_local_write_failure gwOK db0 reqPP "" "" false
      chPromptPayOK (by decide) (by decide) (by decide) rfl⟩

/-- C9: for a successful charge with a resolved user, when the row upsert
succeeds but the balance-credit write fails, upsertTransactionFromCharge
still returns success with the row written and the balances untouched, and
the webhook handler therefore acknowledges the delivery with 200. -/
theorem c9_balance_write_failure_not_propagated (gw : Gateway) (db : DBState)
    (ch : Charge) (uid : Option Nat) (u : Nat) (env : Envelope)
    (hs : ch.status = "successful") (hres : extractUserIDFromCharge ch uid = some u) :
    upsertTransactionFromCharge db ch uid false true
      = .ok { ledger := ledgerUpsert db.ledger (chargeRow ch (some u)),
              balances := db.balances }
    ∧ (env.object = "charge" → env.id ≠ "" → gw.retrieveCharge env.id = .ok ch →
        (paymentHandlerWebhook gw db env false true).1 = 200) := by
  constructor
  · simp [upsertTransactionFromCharge, upsertChargeState, hres, hs]
  · intro h1 h2 h3
    simp [paymentHandlerWebhook, parseEnvelope, h1, h2, retrieveAndUpsert, h3,
      upsertTransactionFromCharge]

theorem c9_balance_write_failure_not_propagated_witness :
    (chSucc.status = "successful" ∧ extractUserIDFromCharge chSucc none = some 7)
    ∧ (upsertTransactionFromCharge db0 chSucc none false true
          = .ok { ledger := ledgerUpsert db0.ledger (chargeRow chSucc (some 7)),
                  balances := db0.balances }
      ∧ (envCharge1.object = "charge" → envCharge1.id ≠ "" →
          gwOK.retrieveCharge envCharge1.id = .ok chSucc →
          (paymentHandlerWebhook gwOK db0 envCharge1 false true).1 = 200)) :=
  ⟨⟨rfl, by decide⟩,
    c9_balance_write_failure_not_propagated gwOK db0 chSucc none 7 envCharge1
      rfl (by decide)⟩

/-- C10: a request whose payment method tag is outside the three supported
values is rejected with a 400 validation error naming the unsupported type,
with no gateway operation issued and the database unchanged. -/
theorem c10_unsupported_payment_type_rejected (gw : Gateway) (db : DBState)
    (req : PaymentRequest) (hdr qry : String) (uf bf : Bool)
    (hA : 0 < req.amount) (hC : req.currency ≠ "")
    (hT : req.paymentType ∉ supportedPaymentTypes) :
    createChargeHandler gw db req hdr qry uf bf
      = (.err 400 ("unsupported paymentType: " ++ req.paymentType), db, []) := by
  have hval : ¬(req.amount ≤ 0 ∨ req.currency = "") := by
    rintro (h | h)
    · exact absurd h (not_le.mpr hA)
    · exact hC h
  simp [createChargeHandler, hval, hT]

theorem c10_unsupported_payment_type_rejected_witness :
    (0 < reqBadType.amount ∧ reqBadType.currency ≠ ""
      ∧ reqBadType.paymentType ∉ supportedPaymentTypes)
    ∧ createChargeHandler gwOK db0 reqBadType "" "" false false
        = (.err 400 ("unsupported paymentType: " ++ reqBadType.paymentType), db0, []) :=
  ⟨⟨by decide, by decide, by decide⟩,
    c10_unsupported_payment_type_rejected gwOK db0 reqBadType "" "" false false
      (by decide) (by decide) (by decide)⟩

theorem c8_user_id_attached_on_all_paths_witness :
    reqPP.userID = some 7
    ∧ (traceChargeOpsCarryUser (processCreditCard gwOK reqPP).2 7
      ∧ traceChargeOpsCarryUser (processPromptPay gwOK reqPP).2 7
      ∧ traceChargeOpsCarryUser (processInternetBanking gwOK reqPP).2 7) :=
  ⟨rfl, c8_user_id_attached_on_all_paths gwOK reqPP 7 rfl⟩

end Tutorium
